import Mathlib

/-!
Verification of the S-Tog commute helper (`commute.py`): a shallow embedding
of its time reconciliation, leave-by scheduling, trip normalization, polyline
extraction, and map-service request handling, together with theorems checking
the design document's claims against the code.

Conventions of the embedding:
* Python `datetime` values are integers counting seconds since 1970-01-01 on
  the proleptic Gregorian calendar (the `strptime` format used by the code has
  second resolution); `timedelta(minutes=x)` is `60 * x` seconds.
* Python `float` arithmetic on these small quantities is exact, so real-number
  intermediate values (e.g. `total_seconds() / 60`) are rationals.
* A JSON field that may be absent is an `Option`; `dict.get(k, d)` is `getD`.
* A JSON field that is sometimes a single object and sometimes a list
  (`isinstance(x, dict)` coercions at lines 86, 97, 123, 136, 164, 562) is
  `OneOrMany`.
* Python code that can raise is embedded in `Option`/`Except`.
-/

namespace Commute

/-- Python `int()` applied to a rational: truncation toward zero
(the numerator T-divided by the positive denominator). -/
def pyInt (q : ℚ) : ℤ := Int.tdiv q.num (q.den : ℤ)

/-- Delay classification produced by `format_delay` (lines 107-117); the four
constructors correspond to the dim "(no RT)", green "on time", yellow
"+n min" and red "+n min" outputs. -/
inductive DelayClass where
  | noRealtimeData
  | onTime
  | minorDelay (mins : ℤ)
  | majorDelay (mins : ℤ)
deriving DecidableEq

/-- The `diff` computed at line 111: `(realtime - scheduled).total_seconds() / 60`,
in minutes, for timestamps in seconds. -/
def delay_diff (scheduled realtime : ℤ) : ℚ := ((realtime : ℚ) - (scheduled : ℚ)) / 60

/-- Embeds `format_delay` (lines 107-117). `realtime is None` gives the
no-realtime marker; otherwise the branch is chosen by `diff <= 0`,
`diff <= 3`, else, and the displayed minute count is `int(diff)`. -/
def format_delay (scheduled : ℤ) (realtime : Option ℤ) : DelayClass :=
  match realtime with
  | none => .noRealtimeData
  | some rt =>
    let diff := delay_diff scheduled rt
    if diff ≤ 0 then .onTime
    else if diff ≤ 3 then .minorDelay (pyInt diff)
    else .majorDelay (pyInt diff)

/-- Embeds the effective-time selection `dep_realtime if dep_realtime else
dep_scheduled` (lines 593-594); a `datetime` object is always truthy, so this
is exactly "realtime if present, else scheduled". -/
def effective_time (scheduled : ℤ) (realtime : Option ℤ) : ℤ :=
  realtime.getD scheduled

/-- Walk-to-station duration constant (line 26). -/
def WALK_MINUTES : ℤ := 7

/-- Maximum acceptable station wait constant (line 27). -/
def MAX_STATION_WAIT : ℤ := 2

/-- Embeds `leave_by = dep_effective - timedelta(minutes=total_lead)` with
`total_lead = WALK_MINUTES + MAX_STATION_WAIT` (lines 555, 597), generalized
over the two constants. -/
def leave_by_time (dep_effective walk maxWait : ℤ) : ℤ :=
  dep_effective - 60 * (walk + maxWait)

/-- Embeds `at_station = leave_by + timedelta(minutes=WALK_MINUTES)` (line 598). -/
def at_station_time (dep_effective walk maxWait : ℤ) : ℤ :=
  leave_by_time dep_effective walk maxWait + 60 * walk

/-- Embeds `station_wait = int((dep_effective - at_station).total_seconds() / 60)`
(line 599). -/
def station_wait_min (dep_effective walk maxWait : ℤ) : ℤ :=
  pyInt (((dep_effective : ℚ) - (at_station_time dep_effective walk maxWait : ℚ)) / 60)

/-! ## Timestamp parsing

`parse_time` (lines 102-104) delegates to `datetime.strptime` with format
`"%Y-%m-%d %H:%M:%S"`.  We embed it as an executable parser producing seconds
since 1970-01-01 on the proleptic Gregorian calendar; `none` models the
`ValueError` that `strptime`/`datetime` raises on malformed input. -/

/-- Splits a character list on a separator character (models `str.split`-style
field separation done by `strptime`'s format directives). -/
def split_chars (sep : Char) : List Char → List (List Char)
  | [] => [[]]
  | ch :: rest =>
    let r := split_chars sep rest
    if ch = sep then [] :: r
    else (ch :: r.headD []) :: r.tail

/-- Reads a nonempty all-digit character list as a natural number. -/
def parse_digits (l : List Char) : Option ℕ :=
  if l ≠ [] ∧ l.all Char.isDigit then
    some (l.foldl (fun acc c => acc * 10 + (c.toNat - 48)) 0)
  else none

/-- Days from 1970-01-01 of a proleptic-Gregorian civil date (the standard
era/year-of-era algorithm); pure integer arithmetic with nonnegative operands
at every division for the dates accepted by `parse_time`. -/
def days_from_civil (y m d : ℤ) : ℤ :=
  let y := y - (if m ≤ 2 then 1 else 0)
  let era := (if 0 ≤ y then y else y - 399) / 400
  let yoe := y - era * 400
  let doy := (153 * (m + (if 2 < m then -3 else 9)) + 2) / 5 + d - 1
  let doe := yoe * 365 + yoe / 4 - yoe / 100 + doy
  era * 146097 + doe - 719468

/-- Embeds `parse_time` (lines 102-104): parse `YYYY-MM-DD` and `HH:MM:SS`
into seconds since 1970-01-01; `none` models `ValueError`. -/
def parse_time (dateStr timeStr : String) : Option ℤ :=
  match (split_chars '-' dateStr.data).map parse_digits,
        (split_chars ':' timeStr.data).map parse_digits with
  | [some y, some mo, some da], [some h, some mi, some s] =>
    if 1 ≤ mo ∧ mo ≤ 12 ∧ 1 ≤ da ∧ da ≤ 31 ∧ h ≤ 23 ∧ mi ≤ 59 ∧ s ≤ 59 then
      some (days_from_civil (y : ℤ) (mo : ℤ) (da : ℤ) * 86400
              + ((h : ℤ) * 3600 + (mi : ℤ) * 60 + (s : ℤ)))
    else none
  | _, _ => none

/-! ## Raw trip data model

Shapes of the upstream JSON that the code reads.  Fields the code never
touches are omitted.  A field read through `dict.get(k, default)` whose
absence matters is an `Option`. -/

/-- A JSON field that the upstream API encodes inconsistently: sometimes a
single object, sometimes a list, sometimes absent.  `coerce_to_list` is the
uniform adapter the code applies at every read site
(`if isinstance(x, dict): x = [x]` over a `.get(k, [])`). -/
inductive OneOrMany (α : Type) where
  | one (a : α)
  | many (l : List α)
  | absent
deriving DecidableEq

/-- The coercion performed at lines 123-124, 136-137, 164-165, 562-563:
`.get(k, [])` followed by the `isinstance(x, dict)` wrap. -/
def coerce_to_list {α : Type} : OneOrMany α → List α
  | .one a => [a]
  | .many l => l
  | .absent => []

/-- One `polylineDesc` entry; the code reads only its `crd` flat coordinate
array (`desc.get("crd", [])`, line 139). -/
structure PolylineDesc where
  crd : List ℚ := []
deriving DecidableEq

/-- A `PolylineGroup` / `GisRoute.polylineGroup` object; the code reads only
`polylineDesc` (line 135).  An absent group behaves as one with an absent
`polylineDesc`. -/
structure PolylineGroup where
  polylineDesc : OneOrMany PolylineDesc := .absent
deriving DecidableEq

/-- The `Origin` / `Destination` object of a leg: scheduled and realtime
date/time strings, each possibly absent (`none` models a missing key; the code
reads them with `.get(k, "")` or two-level `.get`, see lines 172-175 and
572-582). -/
structure StopTimes where
  date : Option String := none
  time : Option String := none
  rtDate : Option String := none
  rtTime : Option String := none
deriving DecidableEq

/-- One raw leg.  `type` models `leg.get("type")` with `""` for an absent key
(every read either defaults to `""` or only compares against `"WALK"`, so the
two encodings are indistinguishable); `polylineGroup` is the `PolylineGroup`
key, `gisPolylineGroup` the `GisRoute.polylineGroup` chain used for WALK legs
(lines 131-134). -/
structure Leg where
  type : String := ""
  name : String := ""
  origin : StopTimes := {}
  destination : StopTimes := {}
  cancelled : Bool := false
  polylineGroup : PolylineGroup := {}
  gisPolylineGroup : PolylineGroup := {}
deriving DecidableEq

/-- One raw trip: the code only ever reads `trip.get("LegList", {}).get("Leg", [])`. -/
structure RawTrip where
  legList : OneOrMany Leg
deriving DecidableEq

/-! ## Polyline extraction (`extract_polylines`, lines 120-148) -/

/-- Python `str.strip()` on the leg name (line 128): drop leading and trailing
whitespace. -/
def py_strip (s : String) : String :=
  ⟨((s.data.dropWhile Char.isWhitespace).reverse.dropWhile Char.isWhitespace).reverse⟩

/-- The `for desc in descs: ... if c: crd = c; break` loop (lines 138-142):
first nonempty `crd` array, if any. -/
def first_nonempty_crd : List PolylineDesc → Option (List ℚ)
  | [] => none
  | d :: rest => if d.crd ≠ [] then some d.crd else first_nonempty_crd rest

/-- The comprehension at line 146: convert the flat longitude-first array
`[lon, lat, lon, lat, ...]` into latitude-first pairs, two elements at a time,
dropping a trailing unpaired element. -/
def convert_crd : List ℚ → List (ℚ × ℚ)
  | lon :: lat :: rest => (lat, lon) :: convert_crd rest
  | _ => []

/-- One extracted polyline (the dict appended at line 147). -/
structure Polyline where
  name : String
  type : String
  coordinates : List (ℚ × ℚ)
deriving DecidableEq

/-- The raw coordinate array chosen for a leg (lines 129-142): the polyline
group comes from `GisRoute.polylineGroup` for WALK legs and `PolylineGroup`
otherwise; descriptors are coerced to a list and the first nonempty `crd`
wins. -/
def leg_crd (leg : Leg) : Option (List ℚ) :=
  first_nonempty_crd (coerce_to_list
    (if leg.type = "WALK" then leg.gisPolylineGroup else leg.polylineGroup).polylineDesc)

/-- The body of the per-leg loop of `extract_polylines` (lines 126-147):
`none` when the leg is skipped by a `continue`. -/
def extract_leg (leg : Leg) : Option Polyline :=
  let leg_type := leg.type
  let name := if leg_type ≠ "WALK" then py_strip leg.name else "Walk"
  match leg_crd leg with
  | none => none
  | some crd =>
    if crd.length < 2 then none
    else some { name := name, type := leg_type, coordinates := convert_crd crd }

/-- Embeds `extract_polylines` (lines 120-148). -/
def extract_polylines (trip : RawTrip) : List Polyline :=
  (coerce_to_list trip.legList).filterMap extract_leg

/-! ## Map trip processing (`process_trips`, lines 151-213) -/

/-- The color palette for transit legs (lines 153-156). -/
def TRANSPORT_COLORS : List String :=
  ["#0074d9", "#e6550d", "#2ca02c", "#d62728",
   "#9467bd", "#8c564b", "#e377c2", "#17becf"]

/-- One entry of the `legs` array returned to the map client (lines 198-203). -/
structure LegInfo where
  name : String
  type : String
  color : String
  coordinates : List (ℚ × ℚ)
deriving DecidableEq

/-- The color-assignment loop (lines 190-203): walk legs get the fixed muted
color, transit legs consume the cyclic palette index. -/
def assign_colors_from (idx : ℕ) : List Polyline → List LegInfo
  | [] => []
  | pl :: rest =>
    if pl.type = "WALK" then
      { name := pl.name, type := pl.type, color := "#888",
        coordinates := pl.coordinates } :: assign_colors_from idx rest
    else
      { name := pl.name, type := pl.type,
        color := TRANSPORT_COLORS.getD (idx % TRANSPORT_COLORS.length) "",
        coordinates := pl.coordinates } :: assign_colors_from (idx + 1) rest

/-- Color assignment starting from `color_idx = 0` (line 191). -/
def assign_colors (pls : List Polyline) : List LegInfo := assign_colors_from 0 pls

/-- Python string slicing `s[:n]` by code point. -/
def py_take (n : ℕ) (s : String) : String := ⟨s.data.take n⟩

/-- One element of the JSON array returned by the map service (lines 205-212).
The `index` field (position in the returned array) and the `duration` display
string derived from `dur_min` are presentation detail omitted here; `dur_min`
is the underlying minute count of line 184 (0 when any of the four date/time
strings was empty, line 180). -/
structure TripData where
  departure : String
  arrival : String
  dur_min : ℤ
  transfers : ℤ
  legs : List LegInfo
deriving DecidableEq

/-- The duration computation at lines 180-184: 0 minutes when any of the
four date/time strings is empty, otherwise parse both endpoints
(`.error` models the `ValueError` `parse_time` raises on a malformed string)
and truncate the minute difference. -/
def trip_duration_min (dep_date dep_time arr_date arr_time : String) : Except String ℤ :=
  if dep_time ≠ "" ∧ arr_time ≠ "" ∧ dep_date ≠ "" ∧ arr_date ≠ "" then
    match parse_time dep_date dep_time, parse_time arr_date arr_time with
    | some dep_dt, some arr_dt =>
      .ok (pyInt (((arr_dt : ℚ) - (dep_dt : ℚ)) / 60))
    | _, _ => .error "ValueError: time data does not match format"
  else .ok 0

/-- The body of the per-trip loop of `process_trips` (lines 158-212):
`.ok none` models a `continue` (trip without extractable geometry);
`.error` models an uncaught exception escaping the loop (`IndexError` from
`legs_raw[0]`, `ValueError` from `parse_time`). -/
def process_one_trip (trip : RawTrip) : Except String (Option TripData) :=
  let polylines := extract_polylines trip
  if polylines = [] then .ok none
  else
    match coerce_to_list trip.legList with
    | [] => .error "IndexError: list index out of range"
    | first_leg :: rest =>
      let last_leg := (first_leg :: rest).getLastD first_leg
      let dep_origin := first_leg.origin
      let arr_dest := last_leg.destination
      let dep_time := dep_origin.rtTime.getD (dep_origin.time.getD "")
      let arr_time := arr_dest.rtTime.getD (arr_dest.time.getD "")
      let dep_date := dep_origin.rtDate.getD (dep_origin.date.getD "")
      let arr_date := arr_dest.rtDate.getD (arr_dest.date.getD "")
      let departure_str := if dep_time ≠ "" then py_take 5 dep_time else "??:??"
      let arrival_str := if arr_time ≠ "" then py_take 5 arr_time else "??:??"
      match trip_duration_min dep_date dep_time arr_date arr_time with
      | .error e => .error e
      | .ok dur_min =>
        .ok (some
          { departure := departure_str
            arrival := arrival_str
            dur_min := dur_min
            transfers :=
              max 0 ((((first_leg :: rest).filter (fun l => l.type != "WALK")).length : ℤ) - 1)
            legs := assign_colors polylines })

/-- Embeds `process_trips` (lines 151-213): trips without geometry are
skipped, an exception aborts the whole call. -/
def process_trips : List RawTrip → Except String (List TripData)
  | [] => .ok []
  | t :: ts =>
    match process_one_trip t with
    | .error e => .error e
    | .ok none => process_trips ts
    | .ok (some td) =>
      match process_trips ts with
      | .error e => .error e
      | .ok rest => .ok (td :: rest)

/-! ## CLI table rows (`display_trips`, lines 560-648) -/

/-- The status column of a row: `CANCELLED` overrides the delay display
(line 614). -/
inductive RowStatus where
  | cancelled
  | delay (d : DelayClass)
deriving DecidableEq

/-- The computed values of one table row (lines 596-614).  Presentation-only
outputs (color of the leave-by time relative to `now`, formatted strings) are
omitted; every arithmetic result feeding them is kept. -/
structure DisplayRow where
  leave_by : ℤ
  at_station : ℤ
  station_wait : ℤ
  dur_min : ℤ
  changes : ℤ
  cancelledFlag : Bool
  status : RowStatus
deriving DecidableEq

/-- The row computation from the parsed times and legs (lines 593-614). -/
def display_row_core (dep_scheduled : ℤ) (dep_realtime : Option ℤ)
    (arr_scheduled : ℤ) (arr_realtime : Option ℤ)
    (legs : List Leg) (first_leg : Leg) : DisplayRow :=
  let dep_effective := effective_time dep_scheduled dep_realtime
  let arr_effective := effective_time arr_scheduled arr_realtime
  { leave_by := leave_by_time dep_effective WALK_MINUTES MAX_STATION_WAIT
    at_station := at_station_time dep_effective WALK_MINUTES MAX_STATION_WAIT
    station_wait := station_wait_min dep_effective WALK_MINUTES MAX_STATION_WAIT
    dur_min := pyInt (((arr_effective : ℚ) - (dep_effective : ℚ)) / 60)
    changes := max 0 (((legs.filter (fun l => l.type != "WALK")).length : ℤ) - 1)
    cancelledFlag := first_leg.cancelled
    status :=
      if first_leg.cancelled then RowStatus.cancelled
      else RowStatus.delay (format_delay dep_scheduled dep_realtime) }

/-- The realtime parse at lines 590-591: `parse_time(rt_date, rt_time) if
rt_time else None`; the outer `none` models a `ValueError` from `parse_time`. -/
def parse_opt_rt (rtDate rtTime : String) : Option (Option ℤ) :=
  if rtTime = "" then some none
  else
    match parse_time rtDate rtTime with
    | none => none
    | some t => some (some t)

/-- The body of the per-trip loop of `display_trips` (lines 560-648): `none`
models both `continue` (no legs, line 564-565; missing departure or arrival
time, lines 584-585) and a `ValueError` escaping from `parse_time`. -/
def display_row (trip : RawTrip) : Option DisplayRow :=
  match coerce_to_list trip.legList with
  | [] => none
  | first_leg :: rest =>
    let last_leg := (first_leg :: rest).getLastD first_leg
    let dep_origin := first_leg.origin
    let arr_dest := last_leg.destination
    let dep_time_str := dep_origin.time.getD ""
    let arr_time_str := arr_dest.time.getD ""
    if dep_time_str = "" ∨ arr_time_str = "" then none
    else
      match parse_time (dep_origin.date.getD "") dep_time_str with
      | none => none
      | some dep_scheduled =>
        match parse_time (arr_dest.date.getD "") arr_time_str with
        | none => none
        | some arr_scheduled =>
          match parse_opt_rt (dep_origin.rtDate.getD "") (dep_origin.rtTime.getD "") with
          | none => none
          | some dep_realtime =>
            match parse_opt_rt (arr_dest.rtDate.getD "") (arr_dest.rtTime.getD "") with
            | none => none
            | some arr_realtime =>
              some (display_row_core dep_scheduled dep_realtime arr_scheduled arr_realtime
                      (first_leg :: rest) first_leg)

/-! ## Map service request handling (`RequestHandler._handle_trips`, lines 465-498)

The upstream call chain is `api.search_trips → RejseplanenREST._get →
urlopen`.  `_get` (lines 45-55) catches `URLError` (unreachable / timeout),
prints a diagnostic and calls `sys.exit(1)`, which raises `SystemExit`.
`SystemExit` derives from `BaseException`, not `Exception`, so the
`except Exception` at line 487 does not catch it: it propagates through the
handler and `serve_forever`, terminating the server process.  Any other
exception raised while querying upstream or processing trips is an
`Exception` and is answered with HTTP 500 (lines 487-492). -/

/-- Behavior of the upstream transit API for one request, as seen through
`urlopen` inside `_get`: a JSON reply (already coerced by `search_trips` to a
trip list), a `URLError` (unreachable or timeout), or some other raised
`Exception` (e.g. a JSON decode error). -/
inductive NetworkBehavior where
  | respond (trips : List RawTrip)
  | unreachable
  | raiseOther (msg : String)
deriving DecidableEq

/-- Body of an HTTP response written by `_handle_trips`. -/
inductive RespBody where
  | errorBody (msg : String)
  | tripList (ts : List TripData)
deriving DecidableEq

/-- An HTTP response: status code and JSON body. -/
structure HttpResponse where
  status : ℕ
  body : RespBody
deriving DecidableEq

/-- What one `GET /api/trips` request does to the service: either an HTTP
response is written and the server keeps serving, or the server process
terminates with an exit code. -/
inductive ServiceOutcome where
  | response (r : HttpResponse)
  | processExit (code : ℕ)
deriving DecidableEq

/-- Outcome of one handler invocation plus whether the upstream trip-search
API was called at all. -/
structure HandlerRun where
  outcome : ServiceOutcome
  upstreamCalled : Bool
deriving DecidableEq

/-- The coordinate extraction `float(qs[k][0])` (lines 468-471): `qs` maps a
parameter name to its list of values (`parse_qs`); an absent key or empty list
models `KeyError`/`IndexError`, and `parseFloat` models the `float(...)`
builtin with `none` for `ValueError`. -/
def parse_coord (qs : String → List String) (parseFloat : String → Option ℚ)
    (k : String) : Option ℚ :=
  match qs k with
  | [] => none
  | v :: _ => parseFloat v

/-- The upstream-and-process part of `_handle_trips` (lines 479-498), reached
only after all four coordinates parsed.  `unreachable` hits `sys.exit(1)`
inside `_get` and the resulting `SystemExit` is not an `Exception`, so the
process exits; any other exception and any exception from `process_trips`
is answered with HTTP 500; success is HTTP 200 with the trip list. -/
def handle_trips_upstream (net : NetworkBehavior) : HandlerRun :=
  match net with
  | .respond raw =>
    match process_trips raw with
    | .ok data => ⟨.response ⟨200, .tripList data⟩, true⟩
    | .error e => ⟨.response ⟨500, .errorBody e⟩, true⟩
  | .unreachable => ⟨.processExit 1, true⟩
  | .raiseOther e => ⟨.response ⟨500, .errorBody e⟩, true⟩

/-- Embeds `_handle_trips` (lines 465-498): parse the four coordinate
parameters; any failure is answered with HTTP 400 before the upstream API is
contacted. -/
def handle_trips (qs : String → List String) (parseFloat : String → Option ℚ)
    (net : NetworkBehavior) : HandlerRun :=
  match parse_coord qs parseFloat "olat", parse_coord qs parseFloat "olon",
        parse_coord qs parseFloat "dlat", parse_coord qs parseFloat "dlon" with
  | some _, some _, some _, some _ => handle_trips_upstream net
  | _, _, _, _ =>
    ⟨.response ⟨400, .errorBody "Missing or invalid coordinates"⟩, false⟩

/-! ## Specification-side definitions and concrete inputs -/

/-- Builds the flat longitude-first array `[lon0, lat0, lon1, lat1, ...]`
from a list of `(lon, lat)` pairs: the inverse of the claim's description of
the raw geometry encoding. -/
def flatten_lonlat : List (ℚ × ℚ) → List ℚ
  | [] => []
  | (lon, lat) :: rest => lon :: lat :: flatten_lonlat rest

/-- Decidable equality for `Except`, needed to evaluate handler and
processing outcomes on concrete inputs. -/
instance {ε α : Type} [DecidableEq ε] [DecidableEq α] : DecidableEq (Except ε α) := fun x y =>
  match x, y with
  | .ok a, .ok b =>
    if h : a = b then .isTrue (congrArg Except.ok h)
    else .isFalse (fun hh => h (Except.ok.inj hh))
  | .error a, .error b =>
    if h : a = b then .isTrue (congrArg Except.error h)
    else .isFalse (fun hh => h (Except.error.inj hh))
  | .ok _, .error _ => .isFalse (fun hh => Except.noConfusion hh)
  | .error _, .ok _ => .isFalse (fun hh => Except.noConfusion hh)

/-- Query string of a well-formed map request: all four coordinates present. -/
def c1_qs : String → List String := fun k =>
  if k = "olat" ∨ k = "olon" ∨ k = "dlat" ∨ k = "dlon" then ["55.5"] else []

/-- Float parsing used with `c1_qs`: `"55.5"` parses, everything else fails. -/
def c1_pf : String → Option ℚ := fun s =>
  if s = "55.5" then some (Rat.divInt 111 2) else none

/-- First leg of the C2 trip: not cancelled, carries the departure times. -/
def c2_leg1 : Leg :=
  { type := "S", name := "A",
    origin := { date := some "1970-01-01", time := some "08:00:00" } }

/-- Last leg of the C2 trip: cancelled, carries the arrival times. -/
def c2_leg2 : Leg :=
  { type := "S", name := "B", cancelled := true,
    destination := { date := some "1970-01-01", time := some "08:30:00" } }

/-- A two-leg trip whose last (and only last) leg is cancelled. -/
def c2_trip : RawTrip := ⟨.many [c2_leg1, c2_leg2]⟩

/-- The row the CLI computes for `c2_trip`. -/
def c2_row : DisplayRow := display_row_core 28800 none 30600 none [c2_leg1, c2_leg2] c2_leg1

/-- A three-leg trip: transit, walk, transit, with full first-departure and
last-arrival times (08:00:00 and 08:30:00 on 1970-01-01). -/
def c6_legS1 : Leg :=
  { type := "S", name := "A",
    origin := { date := some "1970-01-01", time := some "08:00:00" },
    polylineGroup := ⟨.many [⟨[12, 55, 13, 56]⟩]⟩ }

/-- Walk leg of the C6 trips (no geometry of its own). -/
def c6_legW : Leg := { type := "WALK", name := "walk" }

/-- Final transit leg of the C6 trip. -/
def c6_legS2 : Leg :=
  { type := "S", name := "B",
    destination := { date := some "1970-01-01", time := some "08:30:00" },
    polylineGroup := ⟨.many [⟨[13, 56, 14, 57]⟩]⟩ }

/-- The C6 trip for the CLI path. -/
def c6_trip : RawTrip := ⟨.many [c6_legS1, c6_legW, c6_legS2]⟩

/-- The row the CLI computes for `c6_trip`. -/
def c6_row : DisplayRow :=
  display_row_core 28800 none 30600 none [c6_legS1, c6_legW, c6_legS2] c6_legS1

/-- The C6 trip for the map path: same leg shapes but no timing fields, so
the duration computation stays on its integer-only branch. -/
def c6_map_trip : RawTrip :=
  ⟨.many [{ type := "S", name := "A", polylineGroup := ⟨.many [⟨[12, 55, 13, 56]⟩]⟩ },
          c6_legW,
          { type := "S", name := "B", polylineGroup := ⟨.many [⟨[13, 56, 14, 57]⟩]⟩ }]⟩

/-- The map-service record computed for `c6_map_trip`. -/
def c6_map_td : TripData :=
  { departure := "??:??", arrival := "??:??", dur_min := 0, transfers := 1,
    legs := [⟨"A", "S", "#0074d9", [(55, 12), (56, 13)]⟩,
             ⟨"B", "S", "#e6550d", [(56, 13), (57, 14)]⟩] }

/-- A walk-only leg with full times (08:00:00 to 08:10:00). -/
def c6_walk_leg : Leg :=
  { type := "WALK", name := "walk",
    origin := { date := some "1970-01-01", time := some "08:00:00" },
    destination := { date := some "1970-01-01", time := some "08:10:00" } }

/-- A trip whose only leg is the walk leg. -/
def c6_walk_trip : RawTrip := ⟨.many [c6_walk_leg]⟩

/-- The row the CLI computes for `c6_walk_trip`. -/
def c6_walk_row : DisplayRow := display_row_core 28800 none 29400 none [c6_walk_leg] c6_walk_leg

/-- Query string missing the `dlat` parameter. -/
def c7_qs : String → List String := fun k =>
  if k = "olat" ∨ k = "olon" ∨ k = "dlon" then ["55.5"] else []

/-- Float parsing used with `c7_qs`. -/
def c7_pf : String → Option ℚ := fun s =>
  if s = "55.5" then some (Rat.divInt 111 2) else none

/-- A leg with extractable geometry but no timing fields at all. -/
def c8_leg : Leg :=
  { type := "S", name := "X", polylineGroup := ⟨.many [⟨[12, 55, 13, 56]⟩]⟩ }

/-- A trip with geometry but no timing fields. -/
def c8_trip : RawTrip := ⟨.many [c8_leg]⟩

/-- A trip whose only leg carries no geometry. -/
def c8_nogeo_trip : RawTrip := ⟨.many [{ type := "S", name := "Y" }]⟩

/-- A leg with no departure time. -/
def c8_notime_leg : Leg := { type := "S", name := "Z" }

/-- A trip whose first leg has no departure time. -/
def c8_notime_trip : RawTrip := ⟨.many [c8_notime_leg]⟩

/-- A transit leg whose geometry is the flat array `[12, 55, 13, 56]`. -/
def c9_leg : Leg :=
  { type := "S", name := "M", polylineGroup := ⟨.many [⟨[12, 55, 13, 56]⟩]⟩ }

/-- Single leg of the C10 trip: scheduled 08:00:00, realtime 08:02:00,
arrival 08:30:00 on 1970-01-01. -/
def c10_leg : Leg :=
  { type := "S", name := "A",
    origin := { date := some "1970-01-01", time := some "08:00:00",
                rtDate := some "1970-01-01", rtTime := some "08:02:00" },
    destination := { date := some "1970-01-01", time := some "08:30:00" } }

/-- A delayed one-leg trip for the CLI path. -/
def c10_trip : RawTrip := ⟨.many [c10_leg]⟩

/-- The row the CLI computes for `c10_trip`. -/
def c10_row : DisplayRow := display_row_core 28800 (some 28920) 30600 none [c10_leg] c10_leg

/-! ## Helper lemmas -/

lemma pyInt_intCast (z : ℤ) : pyInt (z : ℚ) = z := by
  unfold pyInt
  rw [Rat.num_intCast, Rat.den_intCast]
  simp

lemma at_station_time_eq (d w m : ℤ) : at_station_time d w m = d - 60 * m := by
  unfold at_station_time leave_by_time
  ring

lemma at_station_diff_eq (d w m : ℤ) :
    (((d : ℚ)) - ((at_station_time d w m : ℤ) : ℚ)) / 60 = (m : ℚ) := by
  rw [at_station_time_eq]
  push_cast
  ring

lemma station_wait_min_eq (d w m : ℤ) : station_wait_min d w m = m := by
  unfold station_wait_min
  rw [at_station_diff_eq, pyInt_intCast]

lemma format_delay_some (s r : ℤ) :
    format_delay s (some r) =
      (if delay_diff s r ≤ 0 then DelayClass.onTime
       else if delay_diff s r ≤ 3 then DelayClass.minorDelay (pyInt (delay_diff s r))
       else DelayClass.majorDelay (pyInt (delay_diff s r))) := rfl

lemma display_row_some (trip : RawTrip) (row : DisplayRow) (h : display_row trip = some row) :
    ∃ first rest dep_s dep_rt arr_s arr_rt,
      coerce_to_list trip.legList = first :: rest ∧
      row = display_row_core dep_s dep_rt arr_s arr_rt (first :: rest) first := by
  unfold display_row at h
  split at h
  · exact absurd h (by simp)
  next first rest heq =>
    dsimp only at h
    split at h
    · exact absurd h (by simp)
    · split at h
      · exact absurd h (by simp)
      next dep_s hdep =>
        split at h
        · exact absurd h (by simp)
        next arr_s harr =>
          split at h
          · exact absurd h (by simp)
          next dep_rt hdrt =>
            split at h
            · exact absurd h (by simp)
            next arr_rt hart =>
              exact ⟨first, rest, dep_s, dep_rt, arr_s, arr_rt, heq, (Option.some.inj h).symm⟩

lemma process_one_trip_some (trip : RawTrip) (td : TripData)
    (h : process_one_trip trip = .ok (some td)) :
    ∃ first rest, coerce_to_list trip.legList = first :: rest ∧
      td.transfers =
        max 0 ((((first :: rest).filter (fun l => l.type != "WALK")).length : ℤ) - 1) := by
  unfold process_one_trip at h
  split at h
  · dsimp only at h
    split at h <;> exact absurd h (by simp)
  next first rest heq =>
    dsimp only at h
    split at h
    · exact absurd h (by simp)
    · split at h
      · exact absurd h (by simp)
      next dur hdur =>
        refine ⟨first, rest, heq, ?_⟩
        rw [← Option.some.inj (Except.ok.inj h)]

lemma convert_flatten (ps : List (ℚ × ℚ)) :
    convert_crd (flatten_lonlat ps) = ps.map (fun p => (p.2, p.1)) := by
  induction ps with
  | nil => rfl
  | cons p rest ih =>
    cases p
    simp [flatten_lonlat, convert_crd, ih]

lemma flatten_lonlat_length (ps : List (ℚ × ℚ)) :
    (flatten_lonlat ps).length = 2 * ps.length := by
  induction ps with
  | nil => rfl
  | cons p rest ih =>
    cases p
    simp [flatten_lonlat, ih]
    ring

/-! ## Claims -/

/-- C3: for every (scheduled, realtime) time pair, `format_delay` classifies:
realtime absent gives the no-realtime marker; realtime present with a
difference of at most 0 minutes (in particular, realtime equal to scheduled)
gives on-time; a positive difference of at most 3 minutes gives a minor
delay; a difference of at least 3.0001 minutes gives a major delay; and the
effective time is realtime when present, else scheduled. -/
theorem c3_delay_classification (s r : ℤ) :
    format_delay s none = DelayClass.noRealtimeData ∧
    effective_time s none = s ∧
    effective_time s (some r) = r ∧
    (delay_diff s r ≤ 0 → format_delay s (some r) = DelayClass.onTime) ∧
    (r = s → format_delay s (some r) = DelayClass.onTime) ∧
    (0 < delay_diff s r → delay_diff s r ≤ 3 →
      format_delay s (some r) = DelayClass.minorDelay (pyInt (delay_diff s r))) ∧
    ((3.0001 : ℚ) ≤ delay_diff s r →
      format_delay s (some r) = DelayClass.majorDelay (pyInt (delay_diff s r))) := by
  refine ⟨rfl, rfl, rfl, ?_, ?_, ?_, ?_⟩
  · intro h
    rw [format_delay_some, if_pos h]
  · intro h
    subst h
    rw [format_delay_some, if_pos (by unfold delay_diff; norm_num)]
  · intro h1 h2
    rw [format_delay_some, if_neg (not_le.mpr h1), if_pos h2]
  · intro h
    have h3 : (3 : ℚ) < 3.0001 := by norm_num
    have h0 : (0 : ℚ) < 3.0001 := by norm_num
    rw [format_delay_some, if_neg (not_le.mpr (lt_of_lt_of_le h0 h)),
        if_neg (not_le.mpr (lt_of_lt_of_le h3 h))]

/-- Witness for C3 at concrete inputs: scheduled 0, realtime absent / equal /
180 seconds late (3 minutes, minor) / 181 seconds late (≥ 3.0001 minutes,
major). -/
theorem c3_delay_classification_witness :
    format_delay 0 none = DelayClass.noRealtimeData ∧
    format_delay 0 (some 0) = DelayClass.onTime ∧
    format_delay 0 (some 180) = DelayClass.minorDelay 3 ∧
    format_delay 0 (some 181) = DelayClass.majorDelay 3 := by
  have h1 := (c3_delay_classification 0 0).1
  have h2 := (c3_delay_classification 0 0).2.2.2.2.1 rfl
  have h3 := (c3_delay_classification 0 180).2.2.2.2.2.1
    (by norm_num [delay_diff]) (by norm_num [delay_diff])
  have h4 := (c3_delay_classification 0 181).2.2.2.2.2.2 (by norm_num [delay_diff])
  have e3 : delay_diff 0 180 = ((3 : ℤ) : ℚ) := by norm_num [delay_diff]
  have e4 : delay_diff 0 181 = Rat.divInt 181 60 := by
    rw [Rat.divInt_eq_div]
    norm_num [delay_diff]
  rw [e3, pyInt_intCast] at h3
  rw [e4, show pyInt (Rat.divInt 181 60) = 3 from by decide] at h4
  exact ⟨h1, h2, h3, h4⟩

/-- C4: for every effective departure time (in seconds), walk duration `w`
and max station wait `m` (in minutes): the leave-office time is the effective
departure minus `w + m` minutes, arriving at the station always exactly `w`
minutes after leaving regardless of delay, and the station wait is recomputed
as the rounded difference between effective departure and station arrival;
concretely, scheduled 08:00 with realtime 08:02 (seconds-of-day 28800 and
28920), `w = 7`, `m = 2` yields leave-office 07:53 (28380), at-station 08:00
(28800), and station wait 2 minutes. -/
theorem c4_leave_by_schedule (dep w m : ℤ) :
    leave_by_time dep w m = dep - 60 * (w + m) ∧
    at_station_time dep w m - leave_by_time dep w m = 60 * w ∧
    station_wait_min dep w m = round (((dep : ℚ) - ((at_station_time dep w m : ℤ) : ℚ)) / 60) ∧
    effective_time 28800 (some 28920) = 28920 ∧
    leave_by_time 28920 WALK_MINUTES MAX_STATION_WAIT = 28380 ∧
    at_station_time 28920 WALK_MINUTES MAX_STATION_WAIT = 28800 ∧
    station_wait_min 28920 WALK_MINUTES MAX_STATION_WAIT = 2 := by
  refine ⟨rfl, ?_, ?_, rfl, by decide, by decide, ?_⟩
  · unfold at_station_time
    ring
  · rw [station_wait_min_eq, at_station_diff_eq, round_intCast]
  · rw [station_wait_min_eq]
    decide

/-- C10: for every trip actually rendered by the CLI table path, the computed
station wait equals the `MAX_STATION_WAIT` constant exactly and is never
negative, whether or not real-time data is present, because the leave-office
and at-station times are both derived from the same effective departure. -/
theorem c10_station_wait_constant (trip : RawTrip) (row : DisplayRow)
    (h : display_row trip = some row) :
    row.station_wait = MAX_STATION_WAIT ∧ 0 ≤ row.station_wait := by
  obtain ⟨first, rest, ds, drt, as_, art, hlegs, hrow⟩ := display_row_some trip row h
  subst hrow
  have hw : (display_row_core ds drt as_ art (first :: rest) first).station_wait
      = MAX_STATION_WAIT := station_wait_min_eq _ _ _
  refine ⟨hw, ?_⟩
  rw [hw]
  decide

/-- Witness for C10: a delayed one-leg trip (scheduled 08:00, realtime 08:02)
whose rendered row has station wait exactly `MAX_STATION_WAIT` and
nonnegative. -/
theorem c10_station_wait_constant_witness :
    display_row c10_trip = some c10_row ∧
    c10_row.station_wait = MAX_STATION_WAIT ∧ 0 ≤ c10_row.station_wait := by
  have hd : display_row c10_trip = some c10_row := rfl
  exact ⟨hd, (c10_station_wait_constant c10_trip c10_row hd).1,
         (c10_station_wait_constant c10_trip c10_row hd).2⟩

/-- C2 counterexample: a trip whose first leg is not cancelled but whose last
leg is cancelled is rendered with a false trip-level cancelled status, so the
claimed "OR of first-leg and last-leg cancellation flags" fails on the code
(line 613 reads only the first leg). -/
theorem c2_counterexample :
    (display_row c2_trip).map DisplayRow.cancelledFlag = some false ∧
    c2_leg2.cancelled = true ∧
    (coerce_to_list c2_trip.legList).getLastD c2_leg1 = c2_leg2 :=
  ⟨by decide, rfl, rfl⟩

/-- C2 (amended): for every trip rendered by the CLI table, the trip-level
cancelled status is true if and only if the first leg's cancellation flag is
set; the last leg's flag and intermediate legs do not affect it. -/
theorem c2_first_leg_only (trip : RawTrip) (row : DisplayRow)
    (h : display_row trip = some row) (first : Leg) (rest : List Leg)
    (hlegs : coerce_to_list trip.legList = first :: rest) :
    row.cancelledFlag = first.cancelled ∧
    (row.status = RowStatus.cancelled ↔ first.cancelled = true) := by
  obtain ⟨f, r, ds, drt, as_, art, hlegs2, hrow⟩ := display_row_some trip row h
  rw [hlegs] at hlegs2
  obtain ⟨rfl, rfl⟩ := List.cons.inj hlegs2
  subst hrow
  constructor
  · rfl
  · show (if first.cancelled then RowStatus.cancelled
          else RowStatus.delay (format_delay ds drt)) = RowStatus.cancelled ↔ _
    cases hc : first.cancelled <;> simp [hc]

/-- Witness for C2's amended theorem: on the concrete two-leg trip, the
rendered status tracks exactly the first leg's flag. -/
theorem c2_first_leg_only_witness :
    display_row c2_trip = some c2_row ∧
    c2_row.cancelledFlag = c2_leg1.cancelled ∧
    (c2_row.status = RowStatus.cancelled ↔ c2_leg1.cancelled = true) := by
  have hd : display_row c2_trip = some c2_row := rfl
  have hth := c2_first_leg_only c2_trip c2_row hd c2_leg1 [c2_leg2] rfl
  exact ⟨hd, hth.1, hth.2⟩

/-- C5: a raw trip whose legs field is a single record (the `isinstance`
dict case) is treated identically to the same trip with the legs field
wrapped as a one-element list, by the table display, the map trip
processing, and the polyline extraction. -/
theorem c5_one_or_many_equiv (l : Leg) :
    display_row ⟨OneOrMany.one l⟩ = display_row ⟨OneOrMany.many [l]⟩ ∧
    process_trips [⟨OneOrMany.one l⟩] = process_trips [⟨OneOrMany.many [l]⟩] ∧
    extract_polylines ⟨OneOrMany.one l⟩ = extract_polylines ⟨OneOrMany.many [l]⟩ :=
  ⟨rfl, rfl, rfl⟩

/-- C6: in both the map path and the CLI path, the transfer count equals
`max 0 (number of non-Walk legs - 1)`: Walk-kind legs are excluded from the
count basis, and a trip whose only leg is Walk-kind has transfer count 0. -/
theorem c6_transfer_count :
    (∀ trip row, display_row trip = some row →
      row.changes =
        max 0 ((((coerce_to_list trip.legList).countP (fun l => l.type != "WALK")) : ℤ) - 1)) ∧
    (∀ trip td, process_one_trip trip = Except.ok (some td) →
      td.transfers =
        max 0 ((((coerce_to_list trip.legList).countP (fun l => l.type != "WALK")) : ℤ) - 1)) ∧
    (∀ (l : Leg) row, l.type = "WALK" → display_row ⟨OneOrMany.many [l]⟩ = some row →
      row.changes = 0) := by
  have hdisp : ∀ trip row, display_row trip = some row →
      row.changes =
        max 0 ((((coerce_to_list trip.legList).countP (fun l => l.type != "WALK")) : ℤ) - 1) := by
    intro trip row h
    obtain ⟨first, rest, ds, drt, as_, art, hlegs, hrow⟩ := display_row_some trip row h
    subst hrow
    rw [hlegs, List.countP_eq_length_filter]
    rfl
  refine ⟨hdisp, ?_, ?_⟩
  · intro trip td h
    obtain ⟨first, rest, hlegs, htd⟩ := process_one_trip_some trip td h
    rw [htd, hlegs, List.countP_eq_length_filter]
  · intro l row hwalk h
    rw [hdisp _ _ h]
    simp [coerce_to_list, List.countP_cons, hwalk]

/-- Witness for C6: a transit-walk-transit trip on both paths (changes 1,
transfers 1) and a walk-only trip (changes 0). -/
theorem c6_transfer_count_witness :
    display_row c6_trip = some c6_row ∧
    c6_row.changes =
      max 0 ((((coerce_to_list c6_trip.legList).countP (fun l => l.type != "WALK")) : ℤ) - 1) ∧
    process_one_trip c6_map_trip = Except.ok (some c6_map_td) ∧
    c6_map_td.transfers =
      max 0 ((((coerce_to_list c6_map_trip.legList).countP (fun l => l.type != "WALK")) : ℤ) - 1) ∧
    c6_legW.type = "WALK" ∧
    display_row c6_walk_trip = some c6_walk_row ∧
    c6_walk_row.changes = 0 := by
  have h1 : display_row c6_trip = some c6_row := rfl
  have h2 : process_one_trip c6_map_trip = Except.ok (some c6_map_td) := by decide
  have h3 : display_row c6_walk_trip = some c6_walk_row := rfl
  exact ⟨h1, c6_transfer_count.1 c6_trip c6_row h1,
         h2, c6_transfer_count.2.1 c6_map_trip c6_map_td h2,
         rfl, h3, c6_transfer_count.2.2 c6_walk_leg c6_walk_row rfl h3⟩

/-- C7: for every `GET /api/trips` request in which any of the four
coordinate parameters `olat`, `olon`, `dlat`, `dlon` is missing or not
parseable as a number, the service responds HTTP 400 with an error body and
makes no call to the upstream trip-search API. -/
theorem c7_invalid_params_400 (qs : String → List String) (pf : String → Option ℚ)
    (net : NetworkBehavior)
    (h : parse_coord qs pf "olat" = none ∨ parse_coord qs pf "olon" = none ∨
         parse_coord qs pf "dlat" = none ∨ parse_coord qs pf "dlon" = none) :
    handle_trips qs pf net =
      ⟨ServiceOutcome.response ⟨400, RespBody.errorBody "Missing or invalid coordinates"⟩,
        false⟩ := by
  unfold handle_trips
  cases h1 : parse_coord qs pf "olat" <;> cases h2 : parse_coord qs pf "olon" <;>
    cases h3 : parse_coord qs pf "dlat" <;> cases h4 : parse_coord qs pf "dlon" <;>
      simp_all

/-- Witness for C7: a request with `dlat` missing is answered 400 and the
upstream flag stays false. -/
theorem c7_invalid_params_400_witness :
    parse_coord c7_qs c7_pf "dlat" = none ∧
    handle_trips c7_qs c7_pf (NetworkBehavior.respond []) =
      ⟨ServiceOutcome.response ⟨400, RespBody.errorBody "Missing or invalid coordinates"⟩,
        false⟩ := by
  have h : parse_coord c7_qs c7_pf "dlat" = none := by decide
  exact ⟨h, c7_invalid_params_400 c7_qs c7_pf (NetworkBehavior.respond [])
    (Or.inr (Or.inr (Or.inl h)))⟩

/-- C1 (code bug evaluation): on a well-formed `GET /api/trips` request whose
upstream call hits a transport failure (`URLError`), the handler does not
answer HTTP 500 — `_get` catches the `URLError` and calls `sys.exit(1)`,
whose `SystemExit` is not an `Exception` and escapes the handler's
`except Exception`, so the server process terminates (exit code 1) with the
upstream having been called. -/
theorem c1_transport_failure_exits :
    handle_trips c1_qs c1_pf NetworkBehavior.unreachable =
      ⟨ServiceOutcome.processExit 1, true⟩ := by
  decide

/-- C8 counterexample: a trip with extractable geometry but no timing fields
at all is not excluded from the map response — it is returned with the
placeholder departure `"??:??"` (lines 177-178), so a record missing required
timing fields is partially rendered rather than discarded. -/
theorem c8_counterexample :
    (process_trips [c8_trip]).map (fun l => l.map TripData.departure) =
      Except.ok ["??:??"] ∧
    c8_leg.origin.time = none ∧ c8_leg.destination.time = none :=
  ⟨by decide, rfl, rfl⟩

/-- C8 (amended): a trip whose legs yield no extractable geometry is silently
excluded from the map response while processing continues with the remaining
records, and the CLI table path skips a trip whose first-leg departure time
or last-leg arrival time is missing; the map path, however, keeps a trip with
geometry but missing timing fields, rendering placeholders instead (see the
counterexample). -/
theorem c8_discard_policy :
    (∀ trip rest, extract_polylines trip = [] →
      process_trips (trip :: rest) = process_trips rest) ∧
    (∀ trip first r, coerce_to_list trip.legList = first :: r →
      (first.origin.time.getD "" = "" ∨
        ((first :: r).getLastD first).destination.time.getD "" = "") →
      display_row trip = none) := by
  constructor
  · intro trip rest h
    have hp : process_one_trip trip = .ok none := by
      unfold process_one_trip
      dsimp only
      rw [if_pos h]
    simp only [process_trips, hp]
  · intro trip first r hlegs htime
    unfold display_row
    rw [hlegs]
    dsimp only
    rw [if_pos htime]

/-- Witness for C8's amended theorem: a geometry-less trip disappears from
`process_trips` without disturbing the rest, and a trip with no departure
time yields no CLI row. -/
theorem c8_discard_policy_witness :
    extract_polylines c8_nogeo_trip = [] ∧
    process_trips (c8_nogeo_trip :: [c8_trip]) = process_trips [c8_trip] ∧
    coerce_to_list c8_notime_trip.legList = [c8_notime_leg] ∧
    c8_notime_leg.origin.time.getD "" = "" ∧
    display_row c8_notime_trip = none := by
  have h1 : extract_polylines c8_nogeo_trip = [] := rfl
  have h2 : coerce_to_list c8_notime_trip.legList = [c8_notime_leg] := rfl
  have h3 : c8_notime_leg.origin.time.getD "" = "" := rfl
  exact ⟨h1, c8_discard_policy.1 c8_nogeo_trip [c8_trip] h1, h2, h3,
         c8_discard_policy.2 c8_notime_trip c8_notime_leg [] h2 (Or.inl h3)⟩

/-- C9: for every leg whose chosen raw geometry is the flat coordinate array
`[lon0, lat0, lon1, lat1, ...]` built from a nonempty list of
longitude-first pairs, the extracted polyline is the sequence of
latitude-first pairs `[(lat0, lon0), (lat1, lon1), ...]` in the same order. -/
theorem c9_polyline_latlon_swap (leg : Leg) (ps : List (ℚ × ℚ)) (hne : ps ≠ [])
    (hcrd : leg_crd leg = some (flatten_lonlat ps)) :
    ∃ pl, extract_leg leg = some pl ∧
      pl.coordinates = ps.map (fun p => (p.2, p.1)) := by
  have hlen : ¬ (flatten_lonlat ps).length < 2 := by
    rw [flatten_lonlat_length]
    rcases ps with _ | ⟨p, rest⟩
    · exact absurd rfl hne
    · simp
  unfold extract_leg
  rw [hcrd]
  dsimp only
  rw [if_neg hlen]
  exact ⟨_, rfl, convert_flatten ps⟩

/-- Witness for C9: a leg carrying the flat array `[12, 55, 13, 56]` extracts
to the swapped pair sequence `[(55, 12), (56, 13)]`. -/
theorem c9_polyline_latlon_swap_witness :
    leg_crd c9_leg = some (flatten_lonlat [(12, 55), (13, 56)]) ∧
    ∃ pl, extract_leg c9_leg = some pl ∧
      pl.coordinates = ([((12 : ℚ), (55 : ℚ)), (13, 56)]).map (fun p => (p.2, p.1)) := by
  have h : leg_crd c9_leg = some (flatten_lonlat [(12, 55), (13, 56)]) := rfl
  exact ⟨h, c9_polyline_latlon_swap c9_leg [(12, 55), (13, 56)] (by decide) h⟩

end Commute
